import Mathlib

/-!
Verification of the MySensors network layer (`libraries/MySensors/MySensor.h`).

The repository ships the class header: constants, the EEPROM layout, the
`NodeConfig`/`ControllerConfig` data model and the method signatures of
`MySensor`.  The method bodies (`MySensor.cpp`) and the message structure
(`MyMessage.h`) are not part of the sources, so every behavioural definition
below is modelled from the specification and marked as such in its doc
comment; the constants and the storage layout are taken from the header
itself.
-/

namespace MySensors

/-! ## Constants (from MySensor.h) -/

/-- `#define AUTO 0xFF` — sentinel node id meaning "unassigned, request one". -/
def AUTO : Nat := 0xFF

/-- `#define GATEWAY_ADDRESS ((uint8_t)0)` — node id of the root/gateway. -/
def GATEWAY_ADDRESS : Nat := 0

/-- `#define BROADCAST_ADDRESS ((uint8_t)0xFF)` — broadcast destination,
numerically equal to `AUTO`; also used as the "no route" byte in the
routing table. -/
def BROADCAST_ADDRESS : Nat := 0xFF

/-- `#define SEARCH_FAILURES 5` — search for a new parent node after this
many transmission failures. -/
def SEARCH_FAILURES : Nat := 5

/-- `#define EEPROM_START 0` -/
def EEPROM_START : Nat := 0

/-- `#define EEPROM_NODE_ID_ADDRESS EEPROM_START` -/
def EEPROM_NODE_ID_ADDRESS : Nat := EEPROM_START

/-- `#define EEPROM_PARENT_NODE_ID_ADDRESS (EEPROM_START+1)` -/
def EEPROM_PARENT_NODE_ID_ADDRESS : Nat := EEPROM_START + 1

/-- `#define EEPROM_DISTANCE_ADDRESS (EEPROM_PARENT_NODE_ID_ADDRESS+1)` -/
def EEPROM_DISTANCE_ADDRESS : Nat := EEPROM_PARENT_NODE_ID_ADDRESS + 1

/-- `#define EEPROM_ROUTES_ADDRESS (EEPROM_DISTANCE_ADDRESS+1)` — start of the
routing information in EEPROM; the header comment says it allocates 256
bytes. -/
def EEPROM_ROUTES_ADDRESS : Nat := EEPROM_DISTANCE_ADDRESS + 1

/-- `#define EEPROM_CONTROLLER_CONFIG_ADDRESS (EEPROM_ROUTES_ADDRESS+256)` -/
def EEPROM_CONTROLLER_CONFIG_ADDRESS : Nat := EEPROM_ROUTES_ADDRESS + 256

/-- `#define EEPROM_LOCAL_CONFIG_ADDRESS (EEPROM_CONTROLLER_CONFIG_ADDRESS+24)`
— first free address for sketch static configuration. -/
def EEPROM_LOCAL_CONFIG_ADDRESS : Nat := EEPROM_CONTROLLER_CONFIG_ADDRESS + 24

/-! ## Message envelope

`MyMessage.h` is not among the sources; the envelope and its binary layout
are modelled from the MessageEnvelope data model of the specification. -/

/-- Modelled from the spec: the five message types of the envelope
(presentation/set/request/internal/stream); `MyMessage.h` is not in the
sources. -/
inductive MessageType
  | presentation
  | set
  | request
  | internal
  | stream
deriving DecidableEq, Repr

/-- Byte code for a message type inside the encoded header. -/
def typeCode : MessageType → Nat
  | MessageType.presentation => 0
  | MessageType.set => 1
  | MessageType.request => 2
  | MessageType.internal => 3
  | MessageType.stream => 4

/-- Inverse of `typeCode`; an unknown code is a decode failure. -/
def typeOfCode : Nat → Option MessageType
  | 0 => some MessageType.presentation
  | 1 => some MessageType.set
  | 2 => some MessageType.request
  | 3 => some MessageType.internal
  | 4 => some MessageType.stream
  | _ => none

/-- Modelled from the spec: the message envelope
{destination, sender, lastHop, sensorId, messageType, subType, ackRequested,
payload}; `MyMessage.h` with the concrete `MyMessage` struct is not in the
sources. Field values are bytes, the payload a byte list. -/
structure MessageEnvelope where
  destination : Nat
  sender : Nat
  lastHop : Nat
  sensorId : Nat
  messageType : MessageType
  subType : Nat
  ackRequested : Bool
  payload : List Nat
deriving DecidableEq, Repr

/-- The maximum transfer unit of the radio. The header pulls in `nRF24L01.h`,
whose frames carry at most 32 bytes; the spec treats this as a config
constant. -/
def MTU : Nat := 32

/-- Number of header bytes preceding the payload in the encoded frame
(length, destination, sender, lastHop, sensorId, messageType, subType,
ack flag). -/
def headerSize : Nat := 8

/-- Modelled from the spec: payload length is capped at
MTU − header size − 1 (one byte for the CRC trailer). -/
def maxPayloadLength : Nat := MTU - headerSize - 1

/-- A valid envelope: every header field fits in a byte, every payload
byte is a byte, and the payload fits the MTU budget. -/
def MessageEnvelope.Valid (f : MessageEnvelope) : Prop :=
  f.destination < 256 ∧ f.sender < 256 ∧ f.lastHop < 256 ∧
  f.sensorId < 256 ∧ f.subType < 256 ∧
  f.payload.length ≤ maxPayloadLength ∧ ∀ b ∈ f.payload, b < 256

instance (f : MessageEnvelope) : Decidable f.Valid := by
  unfold MessageEnvelope.Valid
  infer_instance

/-! ## CRC-8

`crc8Message` is declared in the header (line 224) but its body is not in
the sources. -/

/-- Modelled from the spec: one bit step of the 8-bit CRC
(Dallas/Maxim polynomial, reflected); the state is (crc accumulator,
remaining data bits). The body of `crc8Message` is not in the sources; the
spec allows any standard CRC-8 used consistently by all nodes. -/
def crc8UpdateBit (p : Nat × Nat) : Nat × Nat :=
  let crc := p.1
  let data := p.2
  let fb := (crc ^^^ data) % 2
  let crc1 := if fb = 1 then crc ^^^ 0x18 else crc
  let crc2 := (crc1 / 2) % 128
  let crc3 := if fb = 1 then crc2 + 128 else crc2
  (crc3, data / 2)

/-- Fold one data byte (8 bit steps) into the CRC accumulator. -/
def crc8UpdateByte (crc b : Nat) : Nat :=
  (crc8UpdateBit^[8] (crc, b % 256)).1

/-- Modelled from the spec: the 8-bit CRC over a byte sequence, accumulator
initialised to 0; stands in for `crc8Message`, whose body is not in the
sources. -/
def crc8 (bs : List Nat) : Nat :=
  bs.foldl crc8UpdateByte 0

/-! ## Encode / decode

The envelope contract of the spec: `encode(fields) -> bytes` with a deterministic
layout and the checksum computed last over every prior byte;
`decode(bytes) -> MessageEnvelope | ChecksumError` (`validate`, header line
214, has no body in the sources). -/

/-- Modelled from the spec: the header bytes of the encoded frame, a
deterministic fixed layout (payload length first so the decoder can split
payload from trailer). -/
def headerBytes (f : MessageEnvelope) : List Nat :=
  [f.payload.length, f.destination, f.sender, f.lastHop, f.sensorId,
   typeCode f.messageType, f.subType, if f.ackRequested then 1 else 0]

/-- Modelled from the spec: `encode(fields) -> bytes`; all header and
payload bytes first, then the 8-bit CRC computed over all of them. -/
def encode (f : MessageEnvelope) : List Nat :=
  let body := headerBytes f ++ f.payload
  body ++ [crc8 body]

/-- Modelled from the spec: `decode(bytes) -> MessageEnvelope | ChecksumError`
(`none` is the checksum/malformed failure); recomputes the CRC over every
byte before the trailer and compares. -/
def decode (bs : List Nat) : Option MessageEnvelope :=
  match bs with
  | len :: dest :: snd :: lh :: sid :: tc :: st :: ab :: rest =>
    if rest.length = len + 1 then
      let payload := rest.take len
      match rest.drop len with
      | [c] =>
        if c = crc8 (len :: dest :: snd :: lh :: sid :: tc :: st :: ab :: payload) then
          match typeOfCode tc with
          | some mt =>
            some { destination := dest, sender := snd, lastHop := lh,
                   sensorId := sid, messageType := mt, subType := st,
                   ackRequested := ab != 0, payload := payload }
          | none => none
        else none
      | _ => none
    else none
  | _ => none

/-! ## Routing table

`childNodeTable` (header line 218) is the in-memory byte buffer of routing
information; `getChildRoute`/`addChildRoute`/`removeChildRoute` (header
lines 225–227) are declared with `uint8_t` values but their bodies are not
in the sources. -/

/-- The in-memory routing table `uint8_t *childNodeTable`: one byte per
possible node identifier. -/
def ChildTable : Type := Nat → Nat

/-- Modelled from the spec: `lookupRoute` finds the stored byte; the body of
`getChildRoute` is not in the sources. The declared return type is a single
`uint8_t`, so absence is in-band: the "no route" byte is
`BROADCAST_ADDRESS`. -/
def getChildRoute (t : ChildTable) (childId : Nat) : Nat :=
  t childId

/-- Modelled from the spec: `recordRoute(descendantId, nextHopId)` stores the
next hop byte for the descendant; the body of `addChildRoute` is not in the
sources. -/
def addChildRoute (t : ChildTable) (childId route : Nat) : ChildTable :=
  fun i => if i = childId then route else t i

/-- Modelled from the spec: `forgetRoute(descendantId)` unregisters the
entry by storing the "no route" byte; the body of `removeChildRoute` is not
in the sources. -/
def removeChildRoute (t : ChildTable) (childId : Nat) : ChildTable :=
  addChildRoute t childId BROADCAST_ADDRESS

/-- A table with no learned routes: every slot holds the "no route" byte. -/
def emptyTable : ChildTable :=
  fun _ => BROADCAST_ADDRESS

/-- The spec-level view of a lookup: `nextHopId | NotFound`, obtained by
comparing the stored byte against the in-band "no route" value. -/
def lookupRoute (t : ChildTable) (d : Nat) : Option Nat :=
  if getChildRoute t d = BROADCAST_ADDRESS then none else some (getChildRoute t d)

/-- An operation on the routing table: record a route or forget one. -/
inductive RouteOp
  | record (d h : Nat)
  | forget (d : Nat)

/-- Apply one routing-table operation. -/
def applyRouteOp (t : ChildTable) : RouteOp → ChildTable
  | RouteOp.record d h => addChildRoute t d h
  | RouteOp.forget d => removeChildRoute t d

/-- Apply a sequence of routing-table operations, oldest first. -/
def applyRouteOps (t : ChildTable) (ops : List RouteOp) : ChildTable :=
  ops.foldl applyRouteOp t

/-- Whether an operation addresses the entry of descendant `d`. -/
def RouteOp.touches (d : Nat) : RouteOp → Prop
  | RouteOp.record d' _ => d' = d
  | RouteOp.forget d' => d' = d

/-! ## Route resolution -/

/-- Modelled from the spec: `resolveNextHop(destination) -> nodeId` — the
body of `sendRoute` (header line 212) is not in the sources.  If the
destination is the root (gateway) or is not found in the routing table, the
next hop is the own `parentNodeId` of the node; if it is found, the next hop is
the recorded entry. -/
def resolveNextHop (parentNodeId : Nat) (t : ChildTable) (d : Nat) : Nat :=
  if d = GATEWAY_ADDRESS then parentNodeId
  else
    match lookupRoute t d with
    | none => parentNodeId
    | some h => h

/-! ## Failure counter and parent re-discovery -/

/-- Whether the node is in normal operation or is re-running parent
discovery. -/
inductive Mode
  | operational
  | findingParent
deriving DecidableEq, Repr

/-- The node state relevant to the failure counter: the identity fields of
`NodeConfig` plus `failedTransmissions` (header line 217) and the current
mode. -/
structure NodeState where
  nodeId : Nat
  parentNodeId : Nat
  distance : Nat
  failedTransmissions : Nat
  mode : Mode
deriving Repr

/-- Modelled from the spec: the failure-counter effect of one `sendRoute`
call to the current parent — the body of `sendRoute` is not in the sources.
If the counter has already crossed `SEARCH_FAILURES`, the call is preceded
by re-entry into parent discovery (keeping the assigned nodeId); then the
transmission outcome `txOk` resets the counter on success and increments it
on failure. -/
def sendRouteStep (s : NodeState) (txOk : Bool) : NodeState :=
  let s1 :=
    if SEARCH_FAILURES ≤ s.failedTransmissions then
      { s with mode := Mode.findingParent, failedTransmissions := 0 }
    else s
  if txOk then { s1 with failedTransmissions := 0 }
  else { s1 with failedTransmissions := s1.failedTransmissions + 1 }

/-- Run a sequence of `sendRoute` transmission outcomes, oldest first. -/
def runSends (s : NodeState) (rs : List Bool) : NodeState :=
  rs.foldl sendRouteStep s

/-! ## Message dispatch loop -/

/-- The observable outcome of one `process()` cycle: the boolean return
value, the routing table afterwards, the envelope handed to the application
callback (if any), and the retransmitted frame with its next hop (if
any). -/
structure ProcessResult where
  delivered : Bool
  table : ChildTable
  callback : Option MessageEnvelope
  retransmit : Option (Nat × MessageEnvelope)

/-- Modelled from the spec: one cycle of `process()` (header lines 159–164;
its body is not in the sources).  No frame → return false.  Checksum
mismatch → discard silently, return false.  Frame addressed to this node
(own id or broadcast) → learn sender ↦ lastHop, handle control (internal)
messages internally, otherwise invoke the callback and return true.  Frame
addressed elsewhere with relaying enabled → rewrite lastHop to the own id,
resolve the next hop and retransmit, return false.  Otherwise discard. -/
def process (nodeId parentNodeId : Nat) (relayMode : Bool) (t : ChildTable)
    (incoming : Option (List Nat)) : ProcessResult :=
  match incoming with
  | none => { delivered := false, table := t, callback := none, retransmit := none }
  | some bs =>
    match decode bs with
    | none => { delivered := false, table := t, callback := none, retransmit := none }
    | some m =>
      if m.destination = nodeId ∨ m.destination = BROADCAST_ADDRESS then
        let t1 := addChildRoute t m.sender m.lastHop
        if m.messageType = MessageType.internal then
          { delivered := false, table := t1, callback := none, retransmit := none }
        else
          { delivered := true, table := t1, callback := some m, retransmit := none }
      else if relayMode then
        let m1 := { m with lastHop := nodeId }
        { delivered := false, table := t, callback := none,
          retransmit := some (resolveNextHop parentNodeId t m.destination, m1) }
      else
        { delivered := false, table := t, callback := none, retransmit := none }

/-! ## Node bootstrap -/

/-- The outcome of the bootstrap state machine. -/
inductive BootOutcome
  | operational (nodeId parentNodeId distance : Nat)
  | exhausted
deriving DecidableEq, Repr

/-- Modelled from the spec: the `RequestingId` phase (`requestNodeId`,
header line 222; its body is not in the sources).  Each attempt broadcasts
an identifier request; `env i` is the identifier-assignment reply observed
on attempt `i`, if any.  The retry count bounds the loop; exhausting it
yields `none`. -/
def requestNodeIdLoop (env : Nat → Option Nat) : Nat → Option Nat
  | 0 => none
  | n + 1 =>
    match env n with
    | some id => some id
    | none => requestNodeIdLoop env n

/-- Modelled from the spec: parent selection among the collected replies
(neighbor id, neighbor distance-to-root): smallest reported distance wins,
first-seen wins on ties. `findParentNode` (header line 223) has no body in
the sources. -/
def selectParent : List (Nat × Nat) → Option (Nat × Nat)
  | [] => none
  | p :: rest =>
    match selectParent rest with
    | none => some p
    | some q => if q.2 < p.2 then some q else some p

/-- Modelled from the spec: the `FindingParent` phase with a bounded retry
count; `env i` is the list of discovery replies collected on attempt `i`. -/
def findParentLoop (env : Nat → List (Nat × Nat)) : Nat → Option (Nat × Nat)
  | 0 => none
  | n + 1 =>
    match selectParent (env n) with
    | some p => some p
    | none => findParentLoop env n

/-- Modelled from the spec: the bootstrap state machine
`Unidentified → RequestingId → FindingParent → Operational`.  A sentinel
nodeId enters `RequestingId` (bounded retries; exhaustion is fatal); a
successful assignment, or a pre-assigned id, proceeds to `FindingParent`
(skipped entirely by the root, distance 0); choosing a parent sets
`parentNodeId` and `distance = parent distance + 1`. -/
def bootstrap (persistedNodeId : Nat) (idEnv : Nat → Option Nat) (idRetries : Nat)
    (pEnv : Nat → List (Nat × Nat)) (pRetries : Nat) : BootOutcome :=
  let nid? := if persistedNodeId = AUTO then requestNodeIdLoop idEnv idRetries
              else some persistedNodeId
  match nid? with
  | none => BootOutcome.exhausted
  | some nid =>
    if nid = GATEWAY_ADDRESS then BootOutcome.operational nid GATEWAY_ADDRESS 0
    else
      match findParentLoop pEnv pRetries with
      | none => BootOutcome.exhausted
      | some p => BootOutcome.operational nid p.1 (p.2 + 1)

/-! ## Persistent storage -/

/-- The non-volatile storage: a byte at every address. -/
def Eeprom : Type := Nat → Nat

/-- Modelled from the spec: `saveState(pos, value)` writes the byte at
`EEPROM_LOCAL_CONFIG_ADDRESS + pos` (the application area); the body
(header line 181) is not in the sources. -/
def saveState (e : Eeprom) (pos value : Nat) : Eeprom :=
  fun a => if a = EEPROM_LOCAL_CONFIG_ADDRESS + pos then value else e a

/-- Modelled from the spec: `loadState(pos)` reads the byte at
`EEPROM_LOCAL_CONFIG_ADDRESS + pos`; the body (header line 189) is not in
the sources. -/
def loadState (e : Eeprom) (pos : Nat) : Nat :=
  e (EEPROM_LOCAL_CONFIG_ADDRESS + pos)

/-! ## Basic lemmas -/

/-- Decoding the byte code of a message type recovers the type. -/
theorem typeOfCode_typeCode (mt : MessageType) : typeOfCode (typeCode mt) = some mt := by
  cases mt <;> rfl

/-- The ack byte of the encoding decodes back to the ack flag. -/
theorem ackByte_roundtrip (b : Bool) : ((if b then (1 : Nat) else 0) != 0) = b := by
  cases b <;> rfl

/-- Decode inverts encode. -/
theorem decode_encode (f : MessageEnvelope) : decode (encode f) = some f := by
  have hct : (f.payload ++ [crc8 (headerBytes f ++ f.payload)]).take f.payload.length
      = f.payload := List.take_left _ _
  have hcd : (f.payload ++ [crc8 (headerBytes f ++ f.payload)]).drop f.payload.length
      = [crc8 (headerBytes f ++ f.payload)] := List.drop_left _ _
  simp only [encode, headerBytes, List.cons_append, List.nil_append]
  simp only [headerBytes] at hct hcd
  simp only [decode, List.length_append, List.length_cons, List.length_nil,
    List.cons_append, List.nil_append] at *
  simp [hct, hcd, typeOfCode_typeCode, ackByte_roundtrip]

/-- An operation on the table that does not touch the entry of `D` leaves
the byte stored for `D` unchanged. -/
theorem applyRouteOp_untouched (t : ChildTable) (op : RouteOp) (D : Nat)
    (h : ¬op.touches D) : applyRouteOp t op D = t D := by
  cases op with
  | record d' h' =>
    simp only [RouteOp.touches] at h
    simp only [applyRouteOp, addChildRoute]
    rw [if_neg (fun hh : D = d' => h hh.symm)]
  | forget d' =>
    simp only [RouteOp.touches] at h
    simp only [applyRouteOp, removeChildRoute, addChildRoute]
    rw [if_neg (fun hh : D = d' => h hh.symm)]

/-- A sequence of operations none of which touches `D` leaves the byte
stored for `D` unchanged. -/
theorem applyRouteOps_untouched (D : Nat) :
    ∀ (ops : List RouteOp) (t : ChildTable), (∀ op ∈ ops, ¬op.touches D) →
      applyRouteOps t ops D = t D := by
  intro ops
  induction ops with
  | nil => intro t _; rfl
  | cons op rest ih =>
    intro t h
    have h1 : ¬op.touches D := h op (List.mem_cons_self op rest)
    have h2 : ∀ o ∈ rest, ¬o.touches D := fun o ho => h o (List.mem_cons_of_mem op ho)
    calc applyRouteOps (applyRouteOp t op) rest D
        = applyRouteOp t op D := ih (applyRouteOp t op) h2
      _ = t D := applyRouteOp_untouched t op D h1

/-- Helper: the sample envelope used as the C1 witness input. -/
def sampleEnvelope : MessageEnvelope :=
  { destination := 0, sender := 12, lastHop := 3, sensorId := 1,
    messageType := MessageType.set, subType := 2, ackRequested := false,
    payload := [42, 7] }

/-- C1: for every valid envelope (payload within the MTU budget), decoding
the encoding yields the envelope again, and the encoding is the
deterministic layout that places every header and payload byte first and
the 8-bit CRC over all of those bytes last. -/
theorem c1_encode_decode_roundtrip (f : MessageEnvelope) (hv : f.Valid) :
    decode (encode f) = some f ∧
    encode f = (headerBytes f ++ f.payload) ++ [crc8 (headerBytes f ++ f.payload)] :=
  ⟨decode_encode f, rfl⟩

/-- Witness for C1 at a concrete valid envelope. -/
theorem c1_encode_decode_roundtrip_witness :
    sampleEnvelope.Valid ∧
    (decode (encode sampleEnvelope) = some sampleEnvelope ∧
      encode sampleEnvelope = (headerBytes sampleEnvelope ++ sampleEnvelope.payload)
        ++ [crc8 (headerBytes sampleEnvelope ++ sampleEnvelope.payload)]) :=
  ⟨by decide, c1_encode_decode_roundtrip sampleEnvelope (by decide)⟩

/-- C2: for a destination other than the own node id, with a real (non
sentinel) parent: the root destination or a routing miss resolves to the
own `parentNodeId`; a destination with a recorded entry (and not the root)
resolves to that entry; and resolution always produces a next hop (the
parent or a table entry), never an error. -/
theorem c2_resolveNextHop_policy (own parentNodeId d : Nat) (t : ChildTable)
    (hd : d ≠ own) (hp : parentNodeId ≠ AUTO) :
    ((d = GATEWAY_ADDRESS ∨ lookupRoute t d = none) →
      resolveNextHop parentNodeId t d = parentNodeId) ∧
    (∀ h, d ≠ GATEWAY_ADDRESS → lookupRoute t d = some h →
      resolveNextHop parentNodeId t d = h) ∧
    (resolveNextHop parentNodeId t d = parentNodeId ∨
      ∃ h, lookupRoute t d = some h ∧ resolveNextHop parentNodeId t d = h) := by
  refine ⟨?_, ?_, ?_⟩
  · rintro (h | h) <;> simp [resolveNextHop, h]
  · intro h hne hl
    simp [resolveNextHop, hne, hl]
  · by_cases hg : d = GATEWAY_ADDRESS
    · left; simp [resolveNextHop, hg]
    · cases hl : lookupRoute t d with
      | none => left; simp [resolveNextHop, hg, hl]
      | some h =>
        right
        refine ⟨h, rfl, ?_⟩
        simp [resolveNextHop, hg, hl]

/-- Witness for C2: own id 12, parent 3, destination the root, empty
table. -/
theorem c2_resolveNextHop_policy_witness :
    ((0 = GATEWAY_ADDRESS ∨ lookupRoute emptyTable 0 = none) →
      resolveNextHop 3 emptyTable 0 = 3) ∧
    (∀ h, 0 ≠ GATEWAY_ADDRESS → lookupRoute emptyTable 0 = some h →
      resolveNextHop 3 emptyTable 0 = h) ∧
    (resolveNextHop 3 emptyTable 0 = 3 ∨
      ∃ h, lookupRoute emptyTable 0 = some h ∧ resolveNextHop 3 emptyTable 0 = h) :=
  c2_resolveNextHop_policy 12 3 0 emptyTable (by decide) (by decide)

/-- C7: after recording next hop `H` (a real hop, not the in-band "no
route" byte) for descendant `D`, every later lookup of `D` returns `H`
across any sequence of operations that do not touch the entry of `D` —
entries change only through record/forget operations, never by the passage
of time; a lookup is never simultaneously present and absent; and
forgetting `D` makes the lookup absent. -/
theorem c7_record_lookup (t : ChildTable) (D H : Nat) (ops : List RouteOp)
    (hH : H ≠ BROADCAST_ADDRESS) (hops : ∀ op ∈ ops, ¬op.touches D) :
    lookupRoute (applyRouteOps (addChildRoute t D H) ops) D = some H ∧
    (∀ h, ¬(lookupRoute t D = some h ∧ lookupRoute t D = none)) ∧
    lookupRoute (removeChildRoute (applyRouteOps (addChildRoute t D H) ops) D) D = none := by
  have hbyte : applyRouteOps (addChildRoute t D H) ops D = H := by
    rw [applyRouteOps_untouched D ops (addChildRoute t D H) hops]
    simp [addChildRoute]
  refine ⟨?_, ?_, ?_⟩
  · simp [lookupRoute, getChildRoute, hbyte, hH]
  · intro h hc
    obtain ⟨h1, h2⟩ := hc
    rw [h1] at h2
    exact Option.noConfusion h2
  · simp [lookupRoute, getChildRoute, removeChildRoute, addChildRoute]

/-- Witness for C7: record 40 ↦ 3 in the empty table, then record an
unrelated entry 7 ↦ 2. -/
theorem c7_record_lookup_witness :
    lookupRoute (applyRouteOps (addChildRoute emptyTable 40 3)
      [RouteOp.record 7 2]) 40 = some 3 ∧
    (∀ h, ¬(lookupRoute emptyTable 40 = some h ∧ lookupRoute emptyTable 40 = none)) ∧
    lookupRoute (removeChildRoute (applyRouteOps (addChildRoute emptyTable 40 3)
      [RouteOp.record 7 2]) 40) 40 = none :=
  c7_record_lookup emptyTable 40 3 [RouteOp.record 7 2] (by decide)
    (by intro op hop
        simp only [List.mem_singleton] at hop
        subst hop
        simp [RouteOp.touches])

/-- C10: absence is signalled in-band: the routing table stores one byte
per child id, the reserved "no route" byte is `BROADCAST_ADDRESS`, removal
stores exactly that byte, so a recorded next hop equal to the reserved byte
is indistinguishable from an absent entry — the lookup of both is
`none`, and the stored bytes agree at every child id. -/
theorem c10_inband_absence (t : ChildTable) (D : Nat) :
    (∀ d, getChildRoute (addChildRoute t D BROADCAST_ADDRESS) d
        = getChildRoute (removeChildRoute t D) d) ∧
    lookupRoute (addChildRoute t D BROADCAST_ADDRESS) D = none ∧
    lookupRoute (removeChildRoute t D) D = none ∧
    (∀ d, lookupRoute (addChildRoute t D BROADCAST_ADDRESS) d
        = lookupRoute (removeChildRoute t D) d) := by
  refine ⟨fun d => rfl, ?_, ?_, fun d => rfl⟩
  · simp [lookupRoute, getChildRoute, addChildRoute]
  · simp [lookupRoute, getChildRoute, removeChildRoute, addChildRoute]

/-- C9: the persistent layout of the header places nodeId at offset 0,
parentNodeId at 1, distance at 2, the routing table at offsets [3,259),
the controller configuration at [259,283) and the application area from
283 up; `saveState`/`loadState` obey read-after-write on slots 0–255,
writes to other slots do not disturb a slot, and a write never touches any
offset below the application area. -/
theorem c9_storage_layout (e : Eeprom) :
    (EEPROM_NODE_ID_ADDRESS = 0 ∧ EEPROM_PARENT_NODE_ID_ADDRESS = 1 ∧
      EEPROM_DISTANCE_ADDRESS = 2 ∧ EEPROM_ROUTES_ADDRESS = 3 ∧
      EEPROM_CONTROLLER_CONFIG_ADDRESS = 259 ∧ EEPROM_LOCAL_CONFIG_ADDRESS = 283) ∧
    (∀ pos value, pos ≤ 255 → loadState (saveState e pos value) pos = value) ∧
    (∀ pos value pos2, pos2 ≠ pos →
      loadState (saveState e pos value) pos2 = loadState e pos2) ∧
    (∀ pos value a, a < EEPROM_LOCAL_CONFIG_ADDRESS → saveState e pos value a = e a) := by
  refine ⟨by decide, ?_, ?_, ?_⟩
  · intro pos value _
    simp [loadState, saveState]
  · intro pos value pos2 hne
    have : EEPROM_LOCAL_CONFIG_ADDRESS + pos2 ≠ EEPROM_LOCAL_CONFIG_ADDRESS + pos := by
      omega
    simp [loadState, saveState, this]
  · intro pos value a ha
    have : a ≠ EEPROM_LOCAL_CONFIG_ADDRESS + pos := by omega
    simp [saveState, this]

/-- Witness for C9 at a concrete storage, slot and value. -/
theorem c9_storage_layout_witness :
    ((EEPROM_NODE_ID_ADDRESS = 0 ∧ EEPROM_PARENT_NODE_ID_ADDRESS = 1 ∧
      EEPROM_DISTANCE_ADDRESS = 2 ∧ EEPROM_ROUTES_ADDRESS = 3 ∧
      EEPROM_CONTROLLER_CONFIG_ADDRESS = 259 ∧ EEPROM_LOCAL_CONFIG_ADDRESS = 283) ∧
    (∀ pos value, pos ≤ 255 →
      loadState (saveState (fun _ => 0) pos value) pos = value) ∧
    (∀ pos value pos2, pos2 ≠ pos →
      loadState (saveState (fun _ => 0) pos value) pos2
        = loadState (fun _ => 0) pos2) ∧
    (∀ pos value a, a < EEPROM_LOCAL_CONFIG_ADDRESS →
      saveState (fun _ => 0) pos value a = (fun _ => (0 : Nat)) a)) :=
  c9_storage_layout (fun _ => 0)

/-- A successful transmission resets the failure counter, whatever the
state. -/
theorem sendRouteStep_true (s : NodeState) :
    (sendRouteStep s true).failedTransmissions = 0 := by
  by_cases h : SEARCH_FAILURES ≤ s.failedTransmissions <;> simp [sendRouteStep, h]

/-- No `sendRoute` step changes the assigned nodeId. -/
theorem sendRouteStep_nodeId (s : NodeState) (b : Bool) :
    (sendRouteStep s b).nodeId = s.nodeId := by
  by_cases h : SEARCH_FAILURES ≤ s.failedTransmissions <;>
    cases b <;> simp [sendRouteStep, h]

/-- Below the threshold, one failed send increments the counter and
changes neither the mode nor the nodeId. -/
theorem sendRouteStep_false_fields (s : NodeState)
    (h : ¬SEARCH_FAILURES ≤ s.failedTransmissions) :
    (sendRouteStep s false).failedTransmissions = s.failedTransmissions + 1 ∧
    (sendRouteStep s false).mode = s.mode ∧
    (sendRouteStep s false).nodeId = s.nodeId := by
  refine ⟨?_, ?_, ?_⟩ <;> simp [sendRouteStep, h]

/-- Once the counter has crossed the threshold, the next `sendRoute` call
re-enters parent discovery whatever the transmission outcome. -/
theorem sendRouteStep_threshold (s : NodeState) (b : Bool)
    (h : SEARCH_FAILURES ≤ s.failedTransmissions) :
    (sendRouteStep s b).mode = Mode.findingParent := by
  cases b <;> simp [sendRouteStep, h]

/-- Consecutive failed sends below the threshold just count up, changing
neither the mode nor the nodeId. -/
theorem runSends_false_fields (k : Nat) :
    ∀ s : NodeState, s.failedTransmissions + k ≤ SEARCH_FAILURES →
      (runSends s (List.replicate k false)).failedTransmissions
          = s.failedTransmissions + k ∧
      (runSends s (List.replicate k false)).mode = s.mode ∧
      (runSends s (List.replicate k false)).nodeId = s.nodeId := by
  induction k with
  | zero => intro s _; exact ⟨rfl, rfl, rfl⟩
  | succ n ih =>
    intro s h
    have hlt : ¬SEARCH_FAILURES ≤ s.failedTransmissions := by omega
    obtain ⟨hf, hmo, hni⟩ := sendRouteStep_false_fields s hlt
    have hsplit : runSends s (List.replicate (n + 1) false)
        = runSends (sendRouteStep s false) (List.replicate n false) := by
      rw [List.replicate_succ]; rfl
    obtain ⟨hf2, hm2, hn2⟩ := ih (sendRouteStep s false) (by omega)
    rw [hsplit]
    refine ⟨?_, ?_, ?_⟩
    · rw [hf2, hf]; omega
    · rw [hm2, hmo]
    · rw [hn2, hni]

/-- Helper: a clean operational node state for the C3 witness. -/
def initialNodeState : NodeState :=
  { nodeId := 12, parentNodeId := 3, distance := 2,
    failedTransmissions := 0, mode := Mode.operational }

/-- C3: from a clean state, k ≤ 5 consecutive failed transmissions leave
the counter at exactly k (so it reaches the threshold 5 exactly at the
fifth failure and not before) with the node still operational; any single
successful transmission resets the counter to 0, whatever the history;
after five consecutive failures the next `sendRoute` call re-enters parent
discovery first; and no `sendRoute` step changes the assigned nodeId. -/
theorem c3_failure_counter (s : NodeState) (h0 : s.failedTransmissions = 0)
    (hm : s.mode = Mode.operational) :
    (∀ k, k ≤ SEARCH_FAILURES →
      (runSends s (List.replicate k false)).failedTransmissions = k ∧
      (runSends s (List.replicate k false)).mode = Mode.operational) ∧
    (∀ s2 : NodeState, (sendRouteStep s2 true).failedTransmissions = 0) ∧
    (∀ rs, (runSends s (rs ++ [true])).failedTransmissions = 0) ∧
    (∀ b, (sendRouteStep (runSends s (List.replicate SEARCH_FAILURES false)) b).mode
        = Mode.findingParent ∧
      (sendRouteStep (runSends s (List.replicate SEARCH_FAILURES false)) b).nodeId
        = s.nodeId) := by
  obtain ⟨hf5, _, hn5⟩ :=
    runSends_false_fields SEARCH_FAILURES s (by omega)
  refine ⟨?_, sendRouteStep_true, ?_, ?_⟩
  · intro k hk
    obtain ⟨hf, hmo, _⟩ := runSends_false_fields k s (by omega)
    exact ⟨by omega, by rw [hmo, hm]⟩
  · intro rs
    have hsp : runSends s (rs ++ [true]) = sendRouteStep (runSends s rs) true := by
      rw [runSends, List.foldl_append]; rfl
    rw [hsp]
    exact sendRouteStep_true _
  · intro b
    refine ⟨sendRouteStep_threshold _ b (by omega), ?_⟩
    rw [sendRouteStep_nodeId, hn5]

/-- Witness for C3 at a concrete clean node state. -/
theorem c3_failure_counter_witness :
    (∀ k, k ≤ SEARCH_FAILURES →
      (runSends initialNodeState (List.replicate k false)).failedTransmissions = k ∧
      (runSends initialNodeState (List.replicate k false)).mode = Mode.operational) ∧
    (∀ s2 : NodeState, (sendRouteStep s2 true).failedTransmissions = 0) ∧
    (∀ rs, (runSends initialNodeState (rs ++ [true])).failedTransmissions = 0) ∧
    (∀ b, (sendRouteStep (runSends initialNodeState
        (List.replicate SEARCH_FAILURES false)) b).mode = Mode.findingParent ∧
      (sendRouteStep (runSends initialNodeState
        (List.replicate SEARCH_FAILURES false)) b).nodeId = initialNodeState.nodeId) :=
  c3_failure_counter initialNodeState (by decide) (by decide)

/-- C4: `process()` returns false immediately with no observable effect
when no frame is available; a frame that fails checksum validation is
discarded silently (no callback, no retransmission, table untouched) with
return value false; and the return value is true exactly when an envelope
was handed to the application callback, which happens only for a decoded
frame addressed to this node (own id or broadcast). -/
theorem c4_process_return (nodeId parentNodeId : Nat) (relay : Bool)
    (t : ChildTable) (inc : Option (List Nat)) :
    ((process nodeId parentNodeId relay t none).delivered = false ∧
      (process nodeId parentNodeId relay t none).callback = none ∧
      (process nodeId parentNodeId relay t none).retransmit = none ∧
      (process nodeId parentNodeId relay t none).table = t) ∧
    (∀ bs, decode bs = none →
      (process nodeId parentNodeId relay t (some bs)).delivered = false ∧
      (process nodeId parentNodeId relay t (some bs)).callback = none ∧
      (process nodeId parentNodeId relay t (some bs)).retransmit = none ∧
      (process nodeId parentNodeId relay t (some bs)).table = t) ∧
    ((process nodeId parentNodeId relay t inc).delivered = true ↔
      ∃ m, (process nodeId parentNodeId relay t inc).callback = some m) ∧
    ((process nodeId parentNodeId relay t inc).delivered = true →
      ∃ bs m, inc = some bs ∧ decode bs = some m ∧
        (m.destination = nodeId ∨ m.destination = BROADCAST_ADDRESS)) := by
  refine ⟨⟨rfl, rfl, rfl, rfl⟩, ?_, ?_, ?_⟩
  · intro bs h
    refine ⟨?_, ?_, ?_, ?_⟩ <;> simp [process, h]
  · cases inc with
    | none => simp [process]
    | some bs =>
      cases hd : decode bs with
      | none => simp [process, hd]
      | some m =>
        by_cases ha : m.destination = nodeId ∨ m.destination = BROADCAST_ADDRESS
        · by_cases hi : m.messageType = MessageType.internal
          · simp [process, hd, ha, hi]
          · simp [process, hd, ha, hi]
        · cases relay <;> simp [process, hd, ha]
  · cases inc with
    | none => intro h; simp [process] at h
    | some bs =>
      cases hd : decode bs with
      | none => intro h; simp [process, hd] at h
      | some m =>
        intro h
        refine ⟨bs, m, rfl, hd, ?_⟩
        by_contra ha
        cases relay <;> simp [process, hd, ha] at h

/-- Witness for C4 at concrete parameters and an empty input. -/
theorem c4_process_return_witness :
    ((process 12 3 false emptyTable none).delivered = false ∧
      (process 12 3 false emptyTable none).callback = none ∧
      (process 12 3 false emptyTable none).retransmit = none ∧
      (process 12 3 false emptyTable none).table = emptyTable) ∧
    (∀ bs, decode bs = none →
      (process 12 3 false emptyTable (some bs)).delivered = false ∧
      (process 12 3 false emptyTable (some bs)).callback = none ∧
      (process 12 3 false emptyTable (some bs)).retransmit = none ∧
      (process 12 3 false emptyTable (some bs)).table = emptyTable) ∧
    ((process 12 3 false emptyTable none).delivered = true ↔
      ∃ m, (process 12 3 false emptyTable none).callback = some m) ∧
    ((process 12 3 false emptyTable none).delivered = true →
      ∃ bs m, (none : Option (List Nat)) = some bs ∧ decode bs = some m ∧
        (m.destination = 12 ∨ m.destination = BROADCAST_ADDRESS)) :=
  c4_process_return 12 3 false emptyTable none

/-- Helper: the envelope of the relay scenario for C5 (destination 12,
sender 40, lastHop 17, received by relay node 3). -/
def relayEnvelope : MessageEnvelope :=
  { destination := 12, sender := 40, lastHop := 17, sensorId := 1,
    messageType := MessageType.set, subType := 2, ackRequested := false,
    payload := [9] }

/-- C5: a relay-enabled node that decodes a frame destined elsewhere
returns false from `process()`, invokes no callback, and retransmits to
the resolved next hop an envelope whose lastHop is its own id and whose
every other field is unchanged. -/
theorem c5_relay_rewrites_lastHop (nodeId parentNodeId : Nat) (t : ChildTable)
    (bs : List Nat) (m : MessageEnvelope) (hdec : decode bs = some m)
    (hd1 : m.destination ≠ nodeId) (hd2 : m.destination ≠ BROADCAST_ADDRESS) :
    (process nodeId parentNodeId true t (some bs)).delivered = false ∧
    (process nodeId parentNodeId true t (some bs)).callback = none ∧
    ∃ m2, (process nodeId parentNodeId true t (some bs)).retransmit
        = some (resolveNextHop parentNodeId t m.destination, m2) ∧
      m2.lastHop = nodeId ∧ m2.destination = m.destination ∧
      m2.sender = m.sender ∧ m2.sensorId = m.sensorId ∧
      m2.messageType = m.messageType ∧ m2.subType = m.subType ∧
      m2.ackRequested = m.ackRequested ∧ m2.payload = m.payload := by
  have ha : ¬(m.destination = nodeId ∨ m.destination = BROADCAST_ADDRESS) := by
    intro h
    cases h with
    | inl h => exact hd1 h
    | inr h => exact hd2 h
  refine ⟨by simp [process, hdec, ha], by simp [process, hdec, ha], ?_⟩
  refine ⟨{ m with lastHop := nodeId }, ?_, rfl, rfl, rfl, rfl, rfl, rfl, rfl, rfl⟩
  simp [process, hdec, ha]

/-- Witness for C5: relay node 3 with parent 0 forwards the scenario
envelope. -/
theorem c5_relay_rewrites_lastHop_witness :
    (process 3 0 true emptyTable (some (encode relayEnvelope))).delivered = false ∧
    (process 3 0 true emptyTable (some (encode relayEnvelope))).callback = none ∧
    ∃ m2, (process 3 0 true emptyTable (some (encode relayEnvelope))).retransmit
        = some (resolveNextHop 0 emptyTable relayEnvelope.destination, m2) ∧
      m2.lastHop = 3 ∧ m2.destination = relayEnvelope.destination ∧
      m2.sender = relayEnvelope.sender ∧ m2.sensorId = relayEnvelope.sensorId ∧
      m2.messageType = relayEnvelope.messageType ∧
      m2.subType = relayEnvelope.subType ∧
      m2.ackRequested = relayEnvelope.ackRequested ∧
      m2.payload = relayEnvelope.payload :=
  c5_relay_rewrites_lastHop 3 0 emptyTable (encode relayEnvelope) relayEnvelope
    (decode_encode relayEnvelope) (by decide) (by decide)

/-- Helper: the envelope of the delivery scenario for C6 (node 12 with
parent 3 receives a set message from 40 via lastHop 3). -/
def scenarioEnvelope : MessageEnvelope :=
  { destination := 12, sender := 40, lastHop := 3, sensorId := 1,
    messageType := MessageType.set, subType := 2, ackRequested := false,
    payload := [5] }

/-- C6: when `process()` accepts a frame addressed to this node, the
routing table afterwards maps the sender of the frame to its lastHop; in
the concrete scenario, node 12 receiving the set frame from 40 via 3
returns true, maps 40 to 3 and hands the decoded envelope to the
callback. -/
theorem c6_process_learns_route (nodeId parentNodeId : Nat) (relay : Bool)
    (t : ChildTable) (bs : List Nat) (m : MessageEnvelope)
    (hdec : decode bs = some m)
    (ha : m.destination = nodeId ∨ m.destination = BROADCAST_ADDRESS) :
    getChildRoute (process nodeId parentNodeId relay t (some bs)).table m.sender
      = m.lastHop ∧
    (process 12 3 false emptyTable (some (encode scenarioEnvelope))).delivered
      = true ∧
    getChildRoute (process 12 3 false emptyTable
      (some (encode scenarioEnvelope))).table 40 = 3 ∧
    (process 12 3 false emptyTable (some (encode scenarioEnvelope))).callback
      = some scenarioEnvelope := by
  have hse := decode_encode scenarioEnvelope
  refine ⟨?_, ?_, ?_, ?_⟩
  · by_cases hi : m.messageType = MessageType.internal <;>
      simp [process, hdec, ha, hi, getChildRoute, addChildRoute]
  · simp only [process, hse]
    simp [scenarioEnvelope]
  · simp only [process, hse]
    simp [scenarioEnvelope, getChildRoute, addChildRoute]
  · simp only [process, hse]
    simp [scenarioEnvelope]

/-- Witness for C6 at the scenario input itself. -/
theorem c6_process_learns_route_witness :
    getChildRoute (process 12 3 false emptyTable
      (some (encode scenarioEnvelope))).table scenarioEnvelope.sender
      = scenarioEnvelope.lastHop ∧
    (process 12 3 false emptyTable (some (encode scenarioEnvelope))).delivered
      = true ∧
    getChildRoute (process 12 3 false emptyTable
      (some (encode scenarioEnvelope))).table 40 = 3 ∧
    (process 12 3 false emptyTable (some (encode scenarioEnvelope))).callback
      = some scenarioEnvelope :=
  c6_process_learns_route 12 3 false emptyTable (encode scenarioEnvelope)
    scenarioEnvelope (decode_encode scenarioEnvelope) (by decide)

/-- An identifier produced by the request loop was assigned by the
environment on some attempt. -/
theorem requestNodeIdLoop_sound (env : Nat → Option Nat) :
    ∀ n v, requestNodeIdLoop env n = some v → ∃ i, env i = some v := by
  intro n
  induction n with
  | zero =>
    intro v h
    exact absurd h (by simp [requestNodeIdLoop])
  | succ k ih =>
    intro v h
    unfold requestNodeIdLoop at h
    cases he : env k with
    | some id =>
      rw [he] at h
      simp only [Option.some.injEq] at h
      exact ⟨k, by rw [he, h]⟩
    | none =>
      rw [he] at h
      exact ih v h

/-- C8: bootstrap from the sentinel nodeId (a total function of the
bounded retry counts and the observed replies, so it always terminates)
ends either in the fatal exhausted state or in the operational state with
a node id different from the sentinel — never operational while still
holding the sentinel — provided the environment only ever assigns
non-sentinel identifiers. -/
theorem c8_bootstrap_dichotomy (idEnv : Nat → Option Nat) (idRetries : Nat)
    (pEnv : Nat → List (Nat × Nat)) (pRetries : Nat)
    (hids : ∀ i v, idEnv i = some v → v ≠ AUTO) :
    bootstrap AUTO idEnv idRetries pEnv pRetries = BootOutcome.exhausted ∨
    ∃ nid pid d, bootstrap AUTO idEnv idRetries pEnv pRetries
        = BootOutcome.operational nid pid d ∧ nid ≠ AUTO := by
  unfold bootstrap
  rw [if_pos rfl]
  cases hr : requestNodeIdLoop idEnv idRetries with
  | none => left; rfl
  | some nid =>
    obtain ⟨i, hi⟩ := requestNodeIdLoop_sound idEnv idRetries nid hr
    have hnid : nid ≠ AUTO := hids i nid hi
    by_cases hg : nid = GATEWAY_ADDRESS
    · right
      exact ⟨nid, GATEWAY_ADDRESS, 0, by simp [hg], hnid⟩
    · cases hp : findParentLoop pEnv pRetries with
      | none => left; simp [hg, hp]
      | some p =>
        right
        exact ⟨nid, p.1, p.2 + 1, by simp [hg, hp], hnid⟩

/-- Witness for C8: an environment that assigns id 12 on the first attempt
and offers one neighbor at distance 1. -/
theorem c8_bootstrap_dichotomy_witness :
    bootstrap AUTO (fun _ => some 12) 1 (fun _ => [(3, 1)]) 1
      = BootOutcome.exhausted ∨
    ∃ nid pid d, bootstrap AUTO (fun _ => some 12) 1 (fun _ => [(3, 1)]) 1
        = BootOutcome.operational nid pid d ∧ nid ≠ AUTO :=
  c8_bootstrap_dichotomy (fun _ => some 12) 1 (fun _ => [(3, 1)]) 1
    (by intro i v h
        simp only [Option.some.injEq] at h
        subst h
        decide)

end MySensors
